import Mathlib

/-!
# Verification of the kelson orchestration core

Shallow embedding of the orchestration core of the `kelson` CLI:

* `Kelson.Container` — `src/kelson/core/container.py` (`Container` class):
  a service registry with eager singletons and lazy factory bindings;
* `Kelson.resolve` — the `resolve` helper of the same file;
* `Kelson.Config.get` — `src/kelson/core/config.py` (`Config.get`);
* `Kelson.to_snake_case` — `src/kelson/commands/make.py` (`to_snake_case`);
* `Kelson.run` / `Kelson.trainModel` — the four-stage training pipeline of
  `src/kelson/commands/train.py` (`train_model`).

Python dictionaries are embedded as functions into `Option` (the container)
or as association lists (YAML config values); Python exceptions become
`Except` errors; side effects of factory resolvers are embedded by threading
an explicit world state.
-/

namespace Kelson

/-! ## Service container (`src/kelson/core/container.py`)

The class-level dicts `_instances : Dict[str, Any]` and
`_bindings : Dict[str, Callable[[], Any]]` are embedded as fields of a
`Container` value, each a function from keys to `Option`; the value threaded
through a resolver call is an explicit world `ω`, so a resolver is
`ω → ω × α` (a Python zero-argument callable whose body may have effects). -/

/-- The error raised by `Container.make` on a miss: the Python code raises
`ValueError("Service '<key>' not found in container.")`, which carries the
offending key. -/
inductive ContainerError where
  | serviceNotFound (key : String)
deriving DecidableEq

/-- The container state: `instances` holds singletons (`_instances`),
`bindings` holds factory resolvers (`_bindings`). -/
structure Container (α ω : Type) where
  instances : String → Option α
  bindings : String → Option (ω → ω × α)

/-- The container with no bindings at all. -/
def Container.empty {α ω : Type} : Container α ω :=
  ⟨fun _ => none, fun _ => none⟩

/-- `Container.bind`: registers a factory resolver for `key`, overwriting any
prior factory; `_instances` is untouched. -/
def Container.bind {α ω : Type} (c : Container α ω) (key : String)
    (resolver : ω → ω × α) : Container α ω :=
  { c with bindings := fun k => if k = key then some resolver else c.bindings k }

/-- `Container.singleton`: registers a fixed instance for `key`, overwriting
any prior singleton; `_bindings` is untouched. -/
def Container.singleton {α ω : Type} (c : Container α ω) (key : String)
    (inst : α) : Container α ω :=
  { c with instances := fun k => if k = key then some inst else c.instances k }

/-- `Container.make`: returns the singleton for `key` if present, else calls
the factory resolver (threading the world `w`), else raises the miss error.
This is the `if key in cls._instances / if key in cls._bindings / raise`
chain of the source. -/
def Container.make {α ω : Type} (c : Container α ω) (key : String) (w : ω) :
    Except ContainerError (ω × α) :=
  match c.instances key with
  | some v => .ok (w, v)
  | none =>
    match c.bindings key with
    | some r => .ok (r w)
    | none => .error (.serviceNotFound key)

/-- `Container.forget`: deletes both the singleton and the factory entry for
`key` (the source's two conditional `del` statements are equivalent to
unconditional removal). -/
def Container.forget {α ω : Type} (c : Container α ω) (key : String) :
    Container α ω :=
  { instances := fun k => if k = key then none else c.instances k
    bindings := fun k => if k = key then none else c.bindings k }

/-- `n` successive calls of `make` for the same key, threading the world and
collecting the produced instances in order. -/
def Container.makeRepeat {α ω : Type} (c : Container α ω) (key : String) :
    Nat → ω → Except ContainerError (ω × List α)
  | 0, w => .ok (w, [])
  | n + 1, w =>
    match c.make key w with
    | .error e => .error e
    | .ok (w1, a) =>
      match c.makeRepeat key n w1 with
      | .error e => .error e
      | .ok (w2, rest) => .ok (w2, a :: rest)

/-! ## Configuration store (`src/kelson/core/config.py`)

A loaded YAML value is either a mapping (a Python `dict`, embedded as an
association list) or any non-mapping value (scalar, list, …), embedded as
`CVal.scalar` with an opaque string payload — `Config.get` only ever asks
`isinstance(value, dict)`, so non-dict values need no further structure. -/

/-- A configuration value: a mapping or anything else. -/
inductive CVal where
  | scalar (s : String)
  | dict (entries : List (String × CVal))

/-- Python `dict` lookup (`k in value` / `value[k]`) on the association-list
embedding of a mapping. -/
def lookupA : List (String × CVal) → String → Option CVal
  | [], _ => none
  | (k1, v) :: rest, k => if k1 = k then some v else lookupA rest k

/-- Python `key.split(".")`: splits at every dot, keeping empty pieces
(`"a..b" → ["a", "", "b"]`, `"" → [""]`). `acc` is the current piece,
reversed. -/
def splitDotGo : List Char → List Char → List String
  | acc, [] => [String.mk acc.reverse]
  | acc, c :: rest =>
    if c = '.' then String.mk acc.reverse :: splitDotGo [] rest
    else splitDotGo (c :: acc) rest

/-- Python `key.split(".")` on a `String`. -/
def splitDot (s : String) : List String :=
  splitDotGo [] s.data

/-- The `for k in keys` loop of `Config.get`: walk the remaining path
segments; as soon as the current value is not a mapping, or is a mapping
without the next segment, return `default`. -/
def getGo (default : CVal) : List String → CVal → CVal
  | [], v => v
  | k :: ks, CVal.dict kvs =>
    match lookupA kvs k with
    | some v => getGo default ks v
    | none => default
  | _ :: _, CVal.scalar _ => default

/-- `Config.get`: the class-level `_config` dict is passed explicitly as
`config`; the dotted `key` is split and walked from the root mapping. -/
def Config.get (config : List (String × CVal)) (key : String)
    (default : CVal) : CVal :=
  getGo default (splitDot key) (CVal.dict config)

/-! ## Snake-case conversion (`src/kelson/commands/make.py`)

```python
def to_snake_case(name: str) -> str:
    s1 = re.sub('(.)([A-Z][a-z]+)', r'\1_\2', name)
    return re.sub('([a-z0-9])([A-Z])', r'\1_\2', s1).lower()
```

The two substitutions are embedded directly: `re.sub` scans left to right,
replaces each non-overlapping leftmost match and resumes scanning right
after it.  The character classes `[A-Z]`, `[a-z]`, `[0-9]` are the ASCII
ranges; `.` matches every character except a newline; `[a-z]+` is greedy.
`str.lower()` is embedded for the ASCII range (the source's identifiers are
ASCII class names). -/

/-- `[A-Z]`: codepoints 65–90. -/
def isUpper (c : Char) : Bool :=
  decide (65 ≤ c.toNat) && decide (c.toNat ≤ 90)

/-- `[a-z]`: codepoints 97–122. -/
def isLower (c : Char) : Bool :=
  decide (97 ≤ c.toNat) && decide (c.toNat ≤ 122)

/-- `[a-z0-9]`: a lowercase ASCII letter or an ASCII digit (48–57). -/
def isLowerDigit (c : Char) : Bool :=
  isLower c || (decide (48 ≤ c.toNat) && decide (c.toNat ≤ 57))

/-- ASCII `str.lower()` on one character: shift `A`–`Z` down by 32, leave
everything else alone. -/
def lowerChar (c : Char) : Char :=
  if isUpper c then Char.ofNat (c.toNat + 32) else c

/-- One pass of `re.sub('(.)([A-Z][a-z]+)', r'\1_\2', s)`.  At each scan
position, group 1 is any character but a newline, group 2 an uppercase
letter followed by a greedy nonempty run of lowercase letters; on a match an
underscore is inserted between the groups and scanning resumes after the
match; otherwise the scan advances one character.  `fuel` only bounds the
recursion; every step consumes at least one character, so `fuel = length`
(supplied by `sub1`) never runs out. -/
def sub1Go : Nat → List Char → List Char
  | 0, l => l
  | _ + 1, [] => []
  | _ + 1, [c] => [c]
  | fuel + 1, c :: u :: rest =>
    if c != '\n' && isUpper u && !(rest.takeWhile isLower).isEmpty then
      c :: '_' :: u :: rest.takeWhile isLower ++ sub1Go fuel (rest.dropWhile isLower)
    else
      c :: sub1Go fuel (u :: rest)

/-- `re.sub('(.)([A-Z][a-z]+)', r'\1_\2', s)`. -/
def sub1 (l : List Char) : List Char :=
  sub1Go l.length l

/-- `re.sub('([a-z0-9])([A-Z])', r'\1_\2', s)`: at each scan position a
lowercase letter or digit followed by an uppercase letter gets an
underscore inserted between them, and scanning resumes after the pair. -/
def sub2 : List Char → List Char
  | [] => []
  | [c] => [c]
  | c :: u :: rest =>
    if isLowerDigit c && isUpper u then c :: '_' :: u :: sub2 rest
    else c :: sub2 (u :: rest)

/-- `to_snake_case`: the first substitution, then the second, then
`.lower()`. -/
def to_snake_case (name : String) : String :=
  String.mk ((sub2 (sub1 name.data)).map lowerChar)

/-! ## Pipeline executor (`src/kelson/commands/train.py`, `train_model`)

The four-stage section of `train_model` (the `with Live(...)` block):

```python
data = model.load_data()      # stage 1, "Loading data..."
data = model.transform(data)  # stage 2, "Transforming data..."
model.build()                 # stage 3, "Building model architecture..."
model.fit(data)               # stage 4, "Training <name>..."
```

each wrapped in `try/except` that prints `Error during <method>` and raises
`typer.Exit(code=1)`.  The model object's mutable state is threaded
explicitly as `σ`; the `data` variable has type `δ`, `build`'s return value
type `β`, a raised exception type `ε`.  A stage method is a function from
the current state that either raises (`Except.error`) or returns the new
state plus its Python return value.  `run` also returns the list of stages
whose `dashboard.set_status(...)` + method call were reached, in order: a
stage appears in that trace exactly when its method is invoked. -/

/-- The four pipeline stages. -/
inductive Stage where
  | loading
  | transforming
  | building
  | fitting
deriving DecidableEq

/-- A trainable unit: the four duck-typed methods of a model instance, with
the instance's own mutable state `σ` threaded through each call. -/
structure TrainableUnit (σ δ β ε : Type) where
  load_data : σ → Except ε (σ × δ)
  transform : σ → δ → Except ε (σ × δ)
  build : σ → Except ε (σ × β)
  fit : σ → δ → Except ε σ

/-- The outcome of a run: the success path after `fit` (the
`Training completed successfully` report), or `typer.Exit(1)` after the
`Error during <stage>` print, tagged with the stage in progress and the
exception. -/
inductive RunResult (σ ε : Type) where
  | completed (s : σ)
  | failed (stage : Stage) (err : ε)

/-- The pipeline executor: the straight-line four-stage block of
`train_model`.  Returns the outcome plus the trace of stages started, in
order.  `load_data`'s result is bound to `data`, `transform` rebinds `data`,
`build`'s return value is discarded (`_artifact`), `fit` receives `data`. -/
def run {σ δ β ε : Type} (u : TrainableUnit σ δ β ε) (s0 : σ) :
    RunResult σ ε × List Stage :=
  match u.load_data s0 with
  | .error e => (.failed .loading e, [.loading])
  | .ok (s1, d1) =>
    match u.transform s1 d1 with
    | .error e => (.failed .transforming e, [.loading, .transforming])
    | .ok (s2, d2) =>
      match u.build s2 with
      | .error e => (.failed .building e, [.loading, .transforming, .building])
      | .ok (s3, _artifact) =>
        match u.fit s3 d2 with
        | .error e =>
          (.failed .fitting e, [.loading, .transforming, .building, .fitting])
        | .ok s4 =>
          (.completed s4, [.loading, .transforming, .building, .fitting])

/-! ## Python exception classes

Both `train_model`'s locator (`except (ImportError, AttributeError)`) and
the dynamic resolver (`except (ValueError, ImportError, AttributeError)`)
are selective about the class of a raised exception, so a raised exception
is embedded as its class plus its message.  `otherError` stands for every
class outside the three that some `except` clause of the source names:
`SyntaxError` from loading a broken module, `TypeError` from calling an
`__init__` that requires arguments, a runtime error in a module body, … -/

/-- The class of a raised Python exception, as far as the source's `except`
clauses can tell them apart. -/
inductive ExcKind where
  | valueError
  | importError
  | attributeError
  | otherError
deriving DecidableEq

/-- A raised exception: its class and its message. -/
structure PyExc where
  kind : ExcKind
  msg : String
deriving DecidableEq

/-! ## Model locator (`train_model`, lines 98–119)

```python
snake_name = to_snake_case(model_name)
module_path = f"app.Models.{snake_name}"
try:
    module = importlib.import_module(module_path)
    model_class = getattr(module, model_name)
except (ImportError, AttributeError):
    ... "Expected file: app/Models/{snake_name}.py" ... typer.Exit(1)
try:
    model_config = Config.get(f"ml.models.{model_name}", {})
    model = model_class(**model_config)
except Exception:
    ... "Failed to instantiate" ... typer.Exit(1)
```

`import_module` is embedded as `env : String → Except PyExc namespace`:
`.error e` means the import raised `e` — an `ImportError` when the module
is missing, but possibly any other class when the module exists and fails
while loading (`SyntaxError`, a runtime error in its top-level code).  Only
`ImportError` and `AttributeError` are converted to the not-found exit; any
other import exception propagates uncaught out of `train_model`.  A
namespace maps attribute names to values, `none` meaning `getattr` raises
`AttributeError` (which the same clause catches).  The subsequent
instantiation `model_class(**model_config)` sits under `except Exception`,
which catches every modelled class, so instantiation failure is its own
exit; the per-model config fetch is `Config.get`, which is total (C10), and
the keyword expansion is folded into the constructor call. -/

/-- Is the exception class caught by `except (ImportError, AttributeError)`
in `train_model`? -/
def caughtTrainKind : ExcKind → Bool
  | .valueError => false
  | .importError => true
  | .attributeError => true
  | .otherError => false

/-- How `train_model` fails before the pipeline: `modelNotFound` is the
handled exit naming the model and the expected-file path; `uncaughtImport`
is a module-load exception the `except (ImportError, AttributeError)`
clause does not catch, propagating raw; `instantiationFailed` is the
`except Exception` exit of the construction step. -/
inductive TrainFailure where
  | modelNotFound (identifier : String) (expectedPath : String)
  | uncaughtImport (e : PyExc)
  | instantiationFailed (identifier : String) (e : PyExc)
deriving DecidableEq

/-- Module + attribute lookup of `train_model`: derive the snake-case name,
load the module `app.Models.<snake>`, then fetch the attribute named exactly
`model_name` (case preserved).  A module load that raises `ImportError` or
`AttributeError`, or a missing attribute, becomes the not-found exit; a
module load that raises any other class propagates. -/
def locate {μ : Type} (env : String → Except PyExc (String → Option μ))
    (model_name : String) : Except TrainFailure μ :=
  let snake := to_snake_case model_name
  match env ("app.Models." ++ snake) with
  | .error e =>
    if caughtTrainKind e.kind then
      .error (.modelNotFound model_name ("app/Models/" ++ snake ++ ".py"))
    else
      .error (.uncaughtImport e)
  | .ok ns =>
    match ns model_name with
    | none =>
      .error (.modelNotFound model_name ("app/Models/" ++ snake ++ ".py"))
    | some cls => .ok cls

/-- The importable module universe seen by `train_model`: a module name
imports to a namespace or raises; a namespace maps attribute names to
classes; a class is a constructor call that raises or returns the unit plus
its initial state. -/
abbrev TrainEnv (σ δ β ε : Type) : Type :=
  String →
    Except PyExc (String → Option (Unit →
      Except PyExc (TrainableUnit σ δ β ε × σ)))

/-- `train_model` end to end: locate the trainable class, instantiate it
(the constructor call may raise, caught by `except Exception`), then drive
the pipeline.  On every pre-pipeline failure (locator miss, uncaught
module-load exception, instantiation failure) control never reaches the
`with Live` block, so the stage trace is empty: the pipeline is never
started. -/
def trainModel {σ δ β ε : Type} (env : TrainEnv σ δ β ε)
    (model_name : String) :
    Except TrainFailure (RunResult σ ε) × List Stage :=
  match locate env model_name with
  | .error e => (.error e, [])
  | .ok ctor =>
    match ctor () with
    | .error e => (.error (.instantiationFailed model_name e), [])
    | .ok (u, s0) =>
      let (r, t) := run u s0
      (.ok r, t)

/-! ## Dynamic resolver (`src/kelson/core/container.py`, `resolve`)

```python
try:
    module_name, class_name = class_path.rsplit(".", 1)
    module = importlib.import_module(module_name)
    cls_obj = getattr(module, class_name)
    return cls_obj()
except (ValueError, ImportError, AttributeError) as e:
    raise ImportError(f"Could not resolve class '{class_path}': {e}")
```

The `except` clause catches exactly `valueError`, `importError` and
`attributeError` — any other exception raised inside the `try` block (in
this model: by the zero-argument construction `cls_obj()`) propagates
unwrapped.  The importable module universe maps a module name to a
namespace, `none` meaning the module cannot be located (`ImportError`); an
attribute is a zero-argument constructor that either raises or returns an
instance. -/

/-- Is the exception class caught by
`except (ValueError, ImportError, AttributeError)`? -/
def caughtKind : ExcKind → Bool
  | .valueError => true
  | .importError => true
  | .attributeError => true
  | .otherError => false

/-- How `resolve` fails: `resolutionError` is the wrapping
`ImportError(f"Could not resolve class ...")` carrying the path and the
caught cause; `uncaught` is an exception the `except` clause does not
catch, propagating unchanged. -/
inductive ResolveFailure where
  | resolutionError (path : String) (cause : PyExc)
  | uncaught (e : PyExc)
deriving DecidableEq

/-- Python `s.rsplit(".", 1)` restricted to its use here: split at the last
dot, `none` when there is no dot (then the two-name unpacking raises
`ValueError`). -/
def rsplitDotGo : List Char → Option (List Char × List Char)
  | [] => none
  | c :: rest =>
    match rsplitDotGo rest with
    | some (m, cn) => some (c :: m, cn)
    | none => if c = '.' then some ([], rest) else none

/-- `class_path.rsplit(".", 1)` on a `String`. -/
def rsplitDot (s : String) : Option (String × String) :=
  match rsplitDotGo s.data with
  | some (m, cn) => some (String.mk m, String.mk cn)
  | none => none

/-- The `resolve` helper: split the dotted path, import the module, fetch
the class, construct it with zero arguments; a `ValueError` / `ImportError`
/ `AttributeError` raised anywhere inside is wrapped into the resolution
error carrying the path, any other exception (possible only from the
construction step in this model) propagates unchanged. -/
def resolve {α : Type}
    (modules : String → Option (String → Option (Unit → Except PyExc α)))
    (class_path : String) : Except ResolveFailure α :=
  match rsplitDot class_path with
  | none =>
    .error (.resolutionError class_path
      ⟨.valueError, "not enough values to unpack"⟩)
  | some (module_name, class_name) =>
    match modules module_name with
    | none =>
      .error (.resolutionError class_path
        ⟨.importError, "No module named " ++ module_name⟩)
    | some ns =>
      match ns class_name with
      | none =>
        .error (.resolutionError class_path
          ⟨.attributeError, "module " ++ module_name
            ++ " has no attribute " ++ class_name⟩)
      | some ctor =>
        match ctor () with
        | .ok v => .ok v
        | .error e =>
          if caughtKind e.kind then .error (.resolutionError class_path e)
          else .error (.uncaught e)

/-! ## Theorems: service container -/

/-- C4: `make` returns the singleton bound to the key if one is present,
otherwise invokes and returns the factory's result if a factory is present;
singletons take precedence, and `bind` does not affect a singleton already
bound to the same key: after `singleton k a` followed by `bind k r`,
`make k` still returns `a` (and invokes no resolver — the world is
unchanged). -/
theorem make_singleton_precedence {α ω : Type} :
    (∀ (c : Container α ω) (k : String) (w : ω) (v : α),
      c.instances k = some v → c.make k w = .ok (w, v))
    ∧ (∀ (c : Container α ω) (k : String) (w : ω) (r : ω → ω × α),
      c.instances k = none → c.bindings k = some r →
      c.make k w = .ok (r w))
    ∧ (∀ (c : Container α ω) (k : String) (a : α) (r : ω → ω × α) (w : ω),
      ((c.singleton k a).bind k r).make k w = .ok (w, a)) := by
  refine ⟨?_, ?_, ?_⟩
  · intro c k w v h
    simp [Container.make, h]
  · intro c k w r h1 h2
    simp [Container.make, h1, h2]
  · intro c k a r w
    simp [Container.make, Container.singleton, Container.bind]

/-- Witness for C4 at a concrete container: the singleton `1` wins over the
later factory returning `2`. -/
theorem make_singleton_precedence_witness :
    ((Container.empty.singleton "k" 1).bind "k" (fun w => (w, 2))).make "k"
      (0 : Nat) = .ok (0, 1) :=
  (make_singleton_precedence (α := Nat) (ω := Nat)).2.2
    Container.empty "k" 1 (fun w => (w, 2)) 0

/-- C5: factory bindings are never cached.  For a key bound only to a
factory whose resolver bumps a counter in the world, `n` successive `make`
calls advance the counter by exactly `n` — the resolver runs exactly once
per call — and return the `n` per-call results, which may be pairwise
distinct. -/
theorem make_factory_fresh {α : Type} :
    ∀ (c : Container α Nat) (k : String) (f : Nat → α) (n w : Nat),
      c.instances k = none → c.bindings k = some (fun m => (m + 1, f m)) →
      c.makeRepeat k n w =
        .ok (w + n, (List.range n).map (fun i => f (w + i))) := by
  intro c k f n
  induction n with
  | zero =>
    intro w h1 h2
    simp [Container.makeRepeat]
  | succ n ih =>
    intro w h1 h2
    have hmake : c.make k w = .ok (w + 1, f w) := by
      simp [Container.make, h1, h2]
    have hrange : (List.range (n + 1)).map (fun i => f (w + i)) =
        f w :: (List.range n).map (fun i => f (w + 1 + i)) := by
      rw [List.range_succ_eq_map, List.map_cons, List.map_map]
      have hhead : f (w + 0) = f w := by
        congr 1
      have htail : List.map ((fun i => f (w + i)) ∘ Nat.succ) (List.range n) =
          List.map (fun i => f (w + 1 + i)) (List.range n) := by
        apply List.map_congr_left
        intro a _
        simp only [Function.comp_apply]
        congr 1
        omega
      rw [hhead, htail]
    simp only [Container.makeRepeat, hmake, ih (w + 1) h1 h2, hrange]
    rw [show w + 1 + n = w + (n + 1) by omega]

/-- Witness for C5 at a concrete container: a counting resolver, three
calls, counter `0 → 3`, three results. -/
theorem make_factory_fresh_witness :
    (Container.empty.bind "svc" (fun m => (m + 1, m * 10))).makeRepeat "svc"
      3 0 = .ok (0 + 3, (List.range 3).map (fun i => (0 + i) * 10)) :=
  make_factory_fresh (Container.empty.bind "svc" (fun m => (m + 1, m * 10)))
    "svc" (fun m => m * 10) 3 0 rfl rfl

/-- C6: `forget` removes both the singleton and the factory entry for the
key, touches no other key, and is a no-op when neither is present; after
`forget k`, `make k` fails with the registry-miss error naming the key, and
the same error is raised for a key bound in neither map. -/
theorem forget_spec {α ω : Type} :
    (∀ (c : Container α ω) (k : String),
      (c.forget k).instances k = none ∧ (c.forget k).bindings k = none)
    ∧ (∀ (c : Container α ω) (k k1 : String), k1 ≠ k →
      (c.forget k).instances k1 = c.instances k1
        ∧ (c.forget k).bindings k1 = c.bindings k1)
    ∧ (∀ (c : Container α ω) (k : String),
      c.instances k = none → c.bindings k = none → c.forget k = c)
    ∧ (∀ (c : Container α ω) (k : String) (w : ω),
      (c.forget k).make k w = .error (.serviceNotFound k))
    ∧ (∀ (c : Container α ω) (k : String) (w : ω),
      c.instances k = none → c.bindings k = none →
      c.make k w = .error (.serviceNotFound k)) := by
  refine ⟨?_, ?_, ?_, ?_, ?_⟩
  · intro c k
    exact ⟨by simp [Container.forget], by simp [Container.forget]⟩
  · intro c k k1 h
    exact ⟨by simp [Container.forget, h], by simp [Container.forget, h]⟩
  · intro c k h1 h2
    obtain ⟨ci, cb⟩ := c
    simp only [Container.forget]
    congr 1
    · funext k1
      by_cases h : k1 = k
      · subst h
        simpa using h1.symm
      · simp [h]
    · funext k1
      by_cases h : k1 = k
      · subst h
        simpa using h2.symm
      · simp [h]
  · intro c k w
    simp [Container.make, Container.forget]
  · intro c k w h1 h2
    simp [Container.make, h1, h2]

/-- Witness for C6 at a concrete container: bind a singleton and a factory,
forget the key, `make` misses. -/
theorem forget_spec_witness :
    (((Container.empty.singleton "k" 5).bind "k" (fun w => (w, 6))).forget
      "k").make "k" (0 : Nat) = .error (.serviceNotFound "k") :=
  (forget_spec (α := Nat) (ω := Nat)).2.2.2.1
    ((Container.empty.singleton "k" 5).bind "k" (fun w => (w, 6))) "k" 0

/-! ## Theorems: configuration store -/

/-- C10: `Config.get` is total — it is a function returning a `CVal` for
every configuration, dotted key and default, so no input raises — and it
walks the split path segment by segment, returning the supplied default as
soon as the current value is not a mapping or is a mapping without the next
segment; in particular a strict prefix of the path resolving to a scalar
(`app.name` a string under key `app.name.x`) yields the default. -/
theorem config_get_total :
    (∀ (d v : CVal), getGo d [] v = v)
    ∧ (∀ (d : CVal) (s k : String) (ks : List String),
      getGo d (k :: ks) (CVal.scalar s) = d)
    ∧ (∀ (d : CVal) (kvs : List (String × CVal)) (k : String)
        (ks : List String), lookupA kvs k = none →
      getGo d (k :: ks) (CVal.dict kvs) = d)
    ∧ (∀ (d : CVal) (kvs : List (String × CVal)) (k : String)
        (ks : List String) (v : CVal), lookupA kvs k = some v →
      getGo d (k :: ks) (CVal.dict kvs) = getGo d ks v)
    ∧ (∀ (cfg : List (String × CVal)) (key : String) (d : CVal),
      Config.get cfg key d = getGo d (splitDot key) (CVal.dict cfg))
    ∧ Config.get [("app", CVal.dict [("name", CVal.scalar "kelson")])]
        "app.name.x" (CVal.scalar "dflt") = CVal.scalar "dflt" := by
  refine ⟨fun d v => rfl, fun d s k ks => rfl, ?_, ?_, fun cfg key d => rfl,
    rfl⟩
  · intro d kvs k ks h
    simp [getGo, h]
  · intro d kvs k ks v h
    simp [getGo, h]

/-- Witness for C10: the scalar-prefix lookup on a concrete configuration
returns the default. -/
theorem config_get_total_witness :
    Config.get [("app", CVal.dict [("name", CVal.scalar "kelson")])]
      "app.name.x" (CVal.scalar "dflt") = CVal.scalar "dflt" :=
  config_get_total.2.2.2.2.2

/-! ## Theorems: snake-case conversion -/

/-- No character of the list is an ASCII uppercase letter.  Both regex
patterns require an `[A-Z]` character, so they cannot match inside such a
list, and ASCII lowering fixes it. -/
def NoUpper (l : List Char) : Prop := ∀ c ∈ l, isUpper c = false

theorem isUpper_lowerChar (c : Char) : isUpper (lowerChar c) = false := by
  by_cases h : isUpper c = true
  · have hb : 65 ≤ c.toNat ∧ c.toNat ≤ 90 := by
      simpa [isUpper] using h
    simp only [lowerChar, h, if_true]
    obtain ⟨h1, h2⟩ := hb
    obtain ⟨n, hn⟩ : ∃ n, c.toNat = n := ⟨c.toNat, rfl⟩
    rw [hn] at h1 h2 ⊢
    interval_cases n <;> decide
  · simp only [lowerChar, h, if_false]
    simpa using h

theorem noUpper_map_lowerChar (l : List Char) : NoUpper (l.map lowerChar) := by
  intro c hc
  rw [List.mem_map] at hc
  obtain ⟨a, _, rfl⟩ := hc
  exact isUpper_lowerChar a

theorem lowerChar_eq_self {c : Char} (h : isUpper c = false) :
    lowerChar c = c := by
  simp [lowerChar, h]

theorem map_lowerChar_id {l : List Char} (h : NoUpper l) :
    l.map lowerChar = l := by
  induction l with
  | nil => rfl
  | cons c cs ih =>
    have hc : isUpper c = false := h c (by simp)
    have hcs : NoUpper cs := fun x hx => h x (List.mem_cons_of_mem c hx)
    simp [lowerChar_eq_self hc, ih hcs]

theorem sub1Go_id (n : Nat) : ∀ (l : List Char), NoUpper l → sub1Go n l = l := by
  induction n with
  | zero =>
    intro l _
    rfl
  | succ n ih =>
    intro l hl
    cases l with
    | nil => rfl
    | cons c rest0 =>
      cases rest0 with
      | nil => rfl
      | cons u rest =>
        have hu : isUpper u = false := hl u (by simp)
        have hrest : NoUpper (u :: rest) :=
          fun x hx => hl x (List.mem_cons_of_mem c hx)
        simp [sub1Go, hu, ih (u :: rest) hrest]

theorem sub2_id : ∀ (l : List Char), NoUpper l → sub2 l = l := by
  intro l
  induction l with
  | nil =>
    intro _
    rfl
  | cons c rest ih =>
    intro h
    cases rest with
    | nil => rfl
    | cons u rest2 =>
      have hu : isUpper u = false := h u (by simp)
      have h2 : NoUpper (u :: rest2) :=
        fun x hx => h x (List.mem_cons_of_mem c hx)
      simp [sub2, hu, ih h2]

/-- A string with no uppercase character is a fixed point of
`to_snake_case`: both substitutions leave it alone and lowering is the
identity on it. -/
theorem to_snake_case_fixed (t : String) (h : NoUpper t.data) :
    to_snake_case t = t := by
  unfold to_snake_case sub1
  rw [sub1Go_id t.data.length t.data h, sub2_id t.data h, map_lowerChar_id h]

/-- C7: `to_snake_case` is a pure deterministic function (a Lean function of
the identifier alone) that is idempotent on its own output, and it splits on
lower-to-upper and acronym-to-Titlecase case boundaries before lowering:
`"MyClassifier" → "my_classifier"`, `"HTTPLoader" → "http_loader"`,
`"already_snake" → "already_snake"`. -/
theorem to_snake_case_spec :
    (∀ s : String, to_snake_case (to_snake_case s) = to_snake_case s)
    ∧ to_snake_case "MyClassifier" = "my_classifier"
    ∧ to_snake_case "HTTPLoader" = "http_loader"
    ∧ to_snake_case "already_snake" = "already_snake" := by
  refine ⟨?_, by decide, by decide, by decide⟩
  intro s
  apply to_snake_case_fixed
  show NoUpper ((sub2 (sub1 s.data)).map lowerChar)
  exact noUpper_map_lowerChar (sub2 (sub1 s.data))

/-- Witness for C7: idempotence evaluated at `"HTTPLoader"`. -/
theorem to_snake_case_spec_witness :
    to_snake_case (to_snake_case "HTTPLoader") = to_snake_case "HTTPLoader" :=
  to_snake_case_spec.1 "HTTPLoader"

/-! ## Theorems: pipeline executor -/

/-- C1: on a run in which none of the four stage calls raises, `run` starts
the stages in the exact order `load_data`, `transform`, `build`, `fit` —
the trace lists each stage exactly once, in that order, and a stage's
method is invoked exactly when its stage is traced — and the run reaches
the `completed` state.  The state chain `s0 → s1 → s2 → s3 → s4` threads
each method's effect exactly once. -/
theorem run_success_order {σ δ β ε : Type} (u : TrainableUnit σ δ β ε)
    (s0 s1 s2 s3 s4 : σ) (d1 d2 : δ) (b : β)
    (h1 : u.load_data s0 = .ok (s1, d1))
    (h2 : u.transform s1 d1 = .ok (s2, d2))
    (h3 : u.build s2 = .ok (s3, b))
    (h4 : u.fit s3 d2 = .ok s4) :
    run u s0 =
      (.completed s4, [.loading, .transforming, .building, .fitting]) := by
  simp [run, h1, h2, h3, h4]

/-- A unit whose four methods append their own names to a shared log held in
the unit's state — the spec's instrumentation for observing invocation
order. -/
def logUnit : TrainableUnit (List String) Nat Nat Unit where
  load_data s := .ok (s ++ ["load_data"], 0)
  transform s d := .ok (s ++ ["transform"], d + 1)
  build s := .ok (s ++ ["build"], 7)
  fit s _ := .ok (s ++ ["fit"])

/-- Witness for C1: running the logging unit appends exactly
`[load_data, transform, build, fit]`, in order, and completes. -/
theorem run_success_order_witness :
    run logUnit [] =
      (.completed ["load_data", "transform", "build", "fit"],
       [.loading, .transforming, .building, .fitting]) :=
  run_success_order logUnit [] ["load_data"] ["load_data", "transform"]
    ["load_data", "transform", "build"]
    ["load_data", "transform", "build", "fit"] 0 1 7 rfl rfl rfl rfl

/-- C2: if a stage call raises, the run fails tagged with exactly the stage
in progress, the trace shows every earlier stage exactly once (no retry)
and contains no later stage — a later stage's method is never invoked.  In
particular a raising `transform` gives a failure tagged `transforming` with
trace `[loading, transforming]`: `build` and `fit` never start. -/
theorem run_failure_attribution {σ δ β ε : Type} :
    (∀ (u : TrainableUnit σ δ β ε) (s0 : σ) (e : ε),
      u.load_data s0 = .error e →
      run u s0 = (.failed .loading e, [.loading]))
    ∧ (∀ (u : TrainableUnit σ δ β ε) (s0 s1 : σ) (d1 : δ) (e : ε),
      u.load_data s0 = .ok (s1, d1) → u.transform s1 d1 = .error e →
      run u s0 = (.failed .transforming e, [.loading, .transforming]))
    ∧ (∀ (u : TrainableUnit σ δ β ε) (s0 s1 s2 : σ) (d1 d2 : δ) (e : ε),
      u.load_data s0 = .ok (s1, d1) → u.transform s1 d1 = .ok (s2, d2) →
      u.build s2 = .error e →
      run u s0 = (.failed .building e, [.loading, .transforming, .building]))
    ∧ (∀ (u : TrainableUnit σ δ β ε) (s0 s1 s2 s3 : σ) (d1 d2 : δ) (b : β)
        (e : ε),
      u.load_data s0 = .ok (s1, d1) → u.transform s1 d1 = .ok (s2, d2) →
      u.build s2 = .ok (s3, b) → u.fit s3 d2 = .error e →
      run u s0 =
        (.failed .fitting e,
         [.loading, .transforming, .building, .fitting])) := by
  refine ⟨?_, ?_, ?_, ?_⟩
  · intro u s0 e h1
    simp [run, h1]
  · intro u s0 s1 d1 e h1 h2
    simp [run, h1, h2]
  · intro u s0 s1 s2 d1 d2 e h1 h2 h3
    simp [run, h1, h2, h3]
  · intro u s0 s1 s2 s3 d1 d2 b e h1 h2 h3 h4
    simp [run, h1, h2, h3, h4]

/-- A logging unit whose `transform` raises. -/
def transformFailUnit : TrainableUnit (List String) Nat Nat String where
  load_data s := .ok (s ++ ["load_data"], 0)
  transform _ _ := .error "boom"
  build s := .ok (s ++ ["build"], 0)
  fit s _ := .ok (s ++ ["fit"])

/-- Witness for C2: the raising `transform` fails the run tagged
`transforming`; the trace stops there, so `build` and `fit` never run. -/
theorem run_failure_attribution_witness :
    run transformFailUnit [] =
      (.failed .transforming "boom", [.loading, .transforming]) :=
  (run_failure_attribution (σ := List String) (δ := Nat) (β := Nat)
    (ε := String)).2.1 transformFailUnit [] ["load_data"] 0 "boom" rfl rfl

/-- A unit that records in its state the exact argument passed to
`transform` and the exact argument passed to `fit`. -/
def probeUnit (δ β : Type) (d1 d2 : δ) (b : β) :
    TrainableUnit (Option δ × Option δ) δ β Unit where
  load_data s := .ok (s, d1)
  transform s d := .ok ((some d, s.2), d2)
  build s := .ok (s, b)
  fit s d := .ok ((s.1, some d))

/-- The same unit with the value returned by `build` post-composed with
`g`; state effects and every other method unchanged. -/
def withBuild {σ δ β ε : Type} (u : TrainableUnit σ δ β ε) (g : β → β) :
    TrainableUnit σ δ β ε :=
  { u with build := fun s =>
      match u.build s with
      | .ok (s1, art) => .ok (s1, g art)
      | .error e => .error e }

/-- C3: on a successful run the executor passes `load_data`'s return value
unmodified to `transform` and `transform`'s return value unmodified to
`fit` (the probe unit records receiving exactly `d1` and exactly `d2`),
and `build`'s return value is discarded: changing the built artifact
arbitrarily (`withBuild`) changes nothing about the run. -/
theorem run_dataflow :
    (∀ (δ β : Type) (d1 d2 : δ) (b : β),
      run (probeUnit δ β d1 d2 b) (none, none) =
        (.completed (some d1, some d2),
         [.loading, .transforming, .building, .fitting]))
    ∧ (∀ (σ δ β ε : Type) (u : TrainableUnit σ δ β ε) (g : β → β) (s0 : σ),
      run (withBuild u g) s0 = run u s0) := by
  constructor
  · intro δ β d1 d2 b
    rfl
  · intro σ δ β ε u g s0
    simp only [run, withBuild]
    rcases hl : u.load_data s0 with e | ⟨s1, d1⟩
    · simp [hl]
    · rcases ht : u.transform s1 d1 with e | ⟨s2, d2⟩
      · simp [hl, ht]
      · rcases hb : u.build s2 with e | ⟨s3, art⟩
        · simp [hl, ht, hb]
        · simp [hl, ht, hb]

/-- Witness for C3: the probe records exactly the values produced by
`load_data` and `transform`. -/
theorem run_dataflow_witness :
    run (probeUnit Nat Nat 5 9 3) (none, none) =
      (.completed (some 5, some 9),
       [.loading, .transforming, .building, .fitting]) :=
  run_dataflow.1 Nat Nat 5 9 3

/-! ## Theorems: model locator -/

/-- The module universe for the C8 counterexample: the module
`app.Models.broken_model` exists on disk but raises a `SyntaxError` while
loading — an exception class the locator's
`except (ImportError, AttributeError)` does not catch; every other module
is missing (`ImportError`). -/
def synErrEnv : TrainEnv Nat Nat Nat Unit :=
  fun m =>
    if m = "app.Models.broken_model" then
      .error ⟨.otherError, "invalid syntax"⟩
    else
      .error ⟨.importError, "No module named " ++ m⟩

/-- Does the pre-pipeline outcome carry the not-found exit naming an
expected path? -/
def isModelNotFoundRes {γ : Type} : Except TrainFailure γ → Bool
  | .error (.modelNotFound _ _) => true
  | .error (.uncaughtImport _) => false
  | .error (.instantiationFailed _ _) => false
  | .ok _ => false

/-- C8 counterexample: for identifier `BrokenModel` the module at
`app/Models/broken_model.py` exists but fails to load with a
`SyntaxError`; `train_model` propagates the raw exception — the run does
not fail with the not-found error naming the expected path, contradicting
the claim that every load failure does.  (The pipeline is still never
started: the stage trace is empty.) -/
theorem trainModel_counterexample :
    trainModel synErrEnv "BrokenModel" =
      (.error (.uncaughtImport ⟨.otherError, "invalid syntax"⟩), [])
    ∧ isModelNotFoundRes (trainModel synErrEnv "BrokenModel").1 = false :=
  ⟨rfl, rfl⟩

/-- C8 (amended): model location derives the snake-case key from the
identifier, loads the module `app.Models.<key>` and looks up an attribute
named exactly the case-preserved identifier; if the module does not exist
or fails to load with an `ImportError` or `AttributeError`, or the
attribute is absent, `train_model` exits with the not-found error naming
the expected path `app/Models/<key>.py`; a load failure of any other
exception class propagates uncaught.  In every such case — and also when
zero-keyword instantiation of the located class raises — the stage trace
is empty: the pipeline is never started.  When the lookups and the
instantiation succeed, the pipeline runs on the constructed unit. -/
theorem trainModel_spec {σ δ β ε : Type} :
    ∀ (env : TrainEnv σ δ β ε) (name : String),
    (∀ e : PyExc, env ("app.Models." ++ to_snake_case name) = .error e →
      (caughtTrainKind e.kind = true →
        trainModel env name =
          (.error (.modelNotFound name
            ("app/Models/" ++ to_snake_case name ++ ".py")), []))
      ∧ (caughtTrainKind e.kind = false →
        trainModel env name = (.error (.uncaughtImport e), [])))
    ∧ (∀ ns, env ("app.Models." ++ to_snake_case name) = .ok ns →
      ns name = none →
      trainModel env name =
        (.error (.modelNotFound name
          ("app/Models/" ++ to_snake_case name ++ ".py")), []))
    ∧ (∀ ns ctor (e : PyExc),
      env ("app.Models." ++ to_snake_case name) = .ok ns →
      ns name = some ctor → ctor () = .error e →
      trainModel env name = (.error (.instantiationFailed name e), []))
    ∧ (∀ ns ctor (u : TrainableUnit σ δ β ε) (s0 : σ),
      env ("app.Models." ++ to_snake_case name) = .ok ns →
      ns name = some ctor → ctor () = .ok (u, s0) →
      trainModel env name = (.ok (run u s0).1, (run u s0).2)) := by
  intro env name
  refine ⟨?_, ?_, ?_, ?_⟩
  · intro e he
    constructor
    · intro hc
      simp [trainModel, locate, he, hc]
    · intro hc
      simp [trainModel, locate, he, hc]
  · intro ns h1 h2
    simp [trainModel, locate, h1, h2]
  · intro ns ctor e h1 h2 h3
    simp [trainModel, locate, h1, h2, h3]
  · intro ns ctor u s0 h1 h2 h3
    rcases hr : run u s0 with ⟨r, t⟩
    simp [trainModel, locate, h1, h2, h3, hr]

/-- The universe where every import raises `ImportError`: no modules on
disk at all. -/
def absentEnv : TrainEnv Nat Nat Nat Unit :=
  fun m => .error ⟨.importError, "No module named " ++ m⟩

/-- Witness for C8: locating `MyClassifier` with no module present exits
naming `app/Models/my_classifier.py`, with an empty stage trace. -/
theorem trainModel_spec_witness :
    trainModel absentEnv "MyClassifier" =
      (.error (.modelNotFound "MyClassifier"
        ("app/Models/" ++ to_snake_case "MyClassifier" ++ ".py")), [])
    ∧ "app/Models/" ++ to_snake_case "MyClassifier" ++ ".py"
        = "app/Models/my_classifier.py" :=
  ⟨((trainModel_spec absentEnv "MyClassifier").1
      ⟨.importError,
       "No module named " ++ ("app.Models." ++ to_snake_case "MyClassifier")⟩
      rfl).1 rfl, by decide⟩

/-! ## Theorems: dynamic resolver -/

/-- The module universe for the counterexample: `app.Broken` is a class
whose zero-argument construction raises an exception that is none of
`ValueError`, `ImportError`, `AttributeError` (e.g. the `TypeError` a
zero-argument call raises on an `__init__` requiring arguments). -/
def ctorRaiseModules :
    String → Option (String → Option (Unit → Except PyExc Nat)) :=
  fun m =>
    if m = "app" then
      some (fun cn =>
        if cn = "Broken" then some (fun _ => .error ⟨.otherError, "boom"⟩)
        else none)
    else none

/-- Does the result of `resolve` carry the wrapping resolution error? -/
def isResolutionErrorRes {α : Type} : Except ResolveFailure α → Bool
  | .error (.resolutionError _ _) => true
  | .error (.uncaught _) => false
  | .ok _ => false

/-- C9 counterexample: for `app.Broken`, whose zero-argument construction
raises an exception outside `{ValueError, ImportError, AttributeError}`,
`resolve` propagates the raw exception instead of failing with the
path-carrying resolution error — the `except` clause of the source catches
only those three classes, so "zero-argument construction raises" is not
always a `ResolutionError` case. -/
theorem resolve_counterexample :
    resolve ctorRaiseModules "app.Broken" =
      .error (.uncaught ⟨.otherError, "boom"⟩)
    ∧ isResolutionErrorRes (resolve ctorRaiseModules "app.Broken") = false :=
  ⟨rfl, rfl⟩

/-- C9 (amended): for a path with a dot, the segment after the last dot is
the type name and the remainder the module; `resolve` fails with the
resolution error carrying the path and cause when the module cannot be
located, when the type name is absent from it, or when zero-argument
construction raises a `ValueError`, `ImportError` or `AttributeError`; a
construction exception of any other class propagates unwrapped; otherwise
the freshly constructed instance is returned. -/
theorem resolve_spec {α : Type} :
    ∀ (modules : String → Option (String → Option (Unit → Except PyExc α)))
      (p m cn : String), rsplitDot p = some (m, cn) →
    (modules m = none →
      resolve modules p =
        .error (.resolutionError p ⟨.importError, "No module named " ++ m⟩))
    ∧ (∀ ns, modules m = some ns → ns cn = none →
      resolve modules p =
        .error (.resolutionError p
          ⟨.attributeError,
           "module " ++ m ++ " has no attribute " ++ cn⟩))
    ∧ (∀ ns ctor (v : α), modules m = some ns → ns cn = some ctor →
      ctor () = .ok v → resolve modules p = .ok v)
    ∧ (∀ ns ctor (e : PyExc), modules m = some ns → ns cn = some ctor →
      ctor () = .error e → caughtKind e.kind = true →
      resolve modules p = .error (.resolutionError p e))
    ∧ (∀ ns ctor (e : PyExc), modules m = some ns → ns cn = some ctor →
      ctor () = .error e → caughtKind e.kind = false →
      resolve modules p = .error (.uncaught e)) := by
  intro modules p m cn hsplit
  refine ⟨?_, ?_, ?_, ?_, ?_⟩
  · intro h
    simp [resolve, hsplit, h]
  · intro ns h1 h2
    simp [resolve, hsplit, h1, h2]
  · intro ns ctor v h1 h2 h3
    simp [resolve, hsplit, h1, h2, h3]
  · intro ns ctor e h1 h2 h3 h4
    simp [resolve, hsplit, h1, h2, h3, h4]
  · intro ns ctor e h1 h2 h3 h4
    simp [resolve, hsplit, h1, h2, h3, h4]

/-- The module universe for the C9 witness: `app.Good` constructs to
`42`. -/
def okModules : String → Option (String → Option (Unit → Except PyExc Nat)) :=
  fun m =>
    if m = "app" then
      some (fun cn => if cn = "Good" then some (fun _ => .ok 42) else none)
    else none

/-- Witness for C9: the success case at a concrete path. -/
theorem resolve_spec_witness : resolve okModules "app.Good" = .ok 42 :=
  (resolve_spec okModules "app.Good" "app" "Good" rfl).2.2.1
    (fun cn => if cn = "Good" then some (fun _ => .ok 42) else none)
    (fun _ => .ok 42) 42 rfl rfl rfl

end Kelson
